import Mathlib

/-!
Verification development for the greenhouse-gas SARIMA forecasting script
(`prediction.py`).

The script loads a monthly greenhouse-gas table from a remote CSV, parses the
date column, drops every row in which any of the four target gas columns is
missing, and then, for each gas, grid-searches SARIMA orders by AIC
(`optimize_sarima`), fits the chosen model, and emits a 6-month forecast with a
95% confidence interval; all forecasts are written to a CSV file and an HTML
chart.

Embedding conventions:
* Python floats appearing as AIC scores are modelled by `PyFloat`: a rational
  value, the two infinities, or NaN, with the IEEE strict-less-than used by
  the comparison `results.aic < best_aic`.
* `SARIMAX(...).fit()` is a library black box; it is abstracted as an oracle
  `fit : Order → SeasonalOrder → Except Unit PyFloat` returning the fitted
  AIC, or an error when the fit raises (caught by the bare `except: continue`).
* Dates are month indices (`ℕ`), faithful to the `%b-%Y` parse that always
  yields the first day of a month; adding one month is `+ 1`.
* The process-level behaviours (`exit()` on load failure, the unhandled
  `TypeError` when `SARIMAX` is called with `order=None`) are modelled by
  `Except PyError`: an error value means the run aborts there and the outputs
  that would be written later never exist.
-/

/-- IEEE-style float values as they occur for AIC scores: NaN, the two
infinities, or a finite value (modelled exactly as a rational). -/
inductive PyFloat where
  | nan : PyFloat
  | inf : PyFloat
  | ninf : PyFloat
  | val : ℚ → PyFloat
deriving DecidableEq

/-- The IEEE strict-less-than on `PyFloat`: every comparison against NaN is
false; `-∞` is below everything else; `+∞` is below nothing. This is the
comparison evaluated by `results.aic < best_aic` in `optimize_sarima`. -/
def PyFloat.ltB : PyFloat → PyFloat → Bool
  | .nan, _ => false
  | _, .nan => false
  | .ninf, .ninf => false
  | .ninf, _ => true
  | _, .ninf => false
  | .inf, _ => false
  | .val _, .inf => true
  | .val a, .val b => decide (a < b)

/-- A non-seasonal SARIMA order `(p, d, q)`. -/
abbrev Order := ℕ × ℕ × ℕ

/-- A seasonal SARIMA order `(P, D, Q, s)` as built by
`seasonal_order_parts + (seasonality,)`. -/
abbrev SeasonalOrder := ℕ × ℕ × ℕ × ℕ

/-- One candidate of the grid search: a non-seasonal order paired with a
seasonal order. -/
abbrev Candidate := Order × SeasonalOrder

/-- The three mutable variables of `optimize_sarima`:
`best_aic`, `best_order`, `best_seasonal_order`. -/
structure SearchState where
  best_aic : PyFloat
  best_order : Option Order
  best_seasonal_order : Option SeasonalOrder
deriving DecidableEq

/-- The initial state of the search:
`best_aic = float('inf')`, `best_order = None`, `best_seasonal_order = None`. -/
def initState : SearchState := ⟨.inf, none, none⟩

/-- One iteration of the inner loop body of `optimize_sarima`: try to fit the
candidate; on an exception keep the state (`except: continue`); on success
update the three best-variables exactly when `results.aic < best_aic`. -/
def stepCandidate (fit : Order → SeasonalOrder → Except Unit PyFloat)
    (st : SearchState) (c : Candidate) : SearchState :=
  match fit c.1 c.2 with
  | .error _ => st
  | .ok aic => if aic.ltB st.best_aic then ⟨aic, some c.1, some c.2⟩ else st

/-- `itertools.product(xs, ys, zs)` in its iteration order. -/
def product3 (xs ys zs : List ℕ) : List (ℕ × ℕ × ℕ) :=
  xs.flatMap (fun x => ys.flatMap (fun y => zs.map (fun z => (x, y, z))))

/-- The grid search of `optimize_sarima` (lines 72–100 of `prediction.py`):
nested loops over `param_combinations` and `seasonal_param_combinations`,
returning `(best_order, best_seasonal_order)`. -/
def optimize_sarima (fit : Order → SeasonalOrder → Except Unit PyFloat)
    (p_range d_range q_range sP_range sD_range sQ_range : List ℕ)
    (seasonality : ℕ) : Option Order × Option SeasonalOrder :=
  let param_combinations := product3 p_range d_range q_range
  let seasonal_param_combinations := product3 sP_range sD_range sQ_range
  let final := param_combinations.foldl (fun st order =>
    seasonal_param_combinations.foldl (fun st sp =>
      stepCandidate fit st (order, (sp.1, sp.2.1, sp.2.2, seasonality))) st)
    initState
  (final.best_order, final.best_seasonal_order)

/-- The full list of candidates visited by the two nested loops of
`optimize_sarima`, in visit order. -/
def sarimaCandidates (p_range d_range q_range sP_range sD_range sQ_range : List ℕ)
    (seasonality : ℕ) : List Candidate :=
  (product3 p_range d_range q_range).flatMap (fun o =>
    (product3 sP_range sD_range sQ_range).map (fun sp =>
      (o, (sp.1, sp.2.1, sp.2.2, seasonality))))

/-- Folding the loop body over an explicit candidate list. -/
def searchFold (fit : Order → SeasonalOrder → Except Unit PyFloat)
    (cands : List Candidate) : SearchState :=
  cands.foldl (stepCandidate fit) initState

lemma foldl_flatMap {α β γ : Type} (f : γ → α → γ) (g : β → List α)
    (l : List β) (init : γ) :
    (l.flatMap g).foldl f init = l.foldl (fun st x => (g x).foldl f st) init := by
  induction l generalizing init with
  | nil => rfl
  | cons b t ih => simp [List.flatMap_cons, List.foldl_append, ih]

/-- The nested loops of `optimize_sarima` are the fold of the loop body over
the flattened candidate list. -/
lemma optimize_sarima_eq_searchFold
    (fit : Order → SeasonalOrder → Except Unit PyFloat)
    (pr dr qr sPr sDr sQr : List ℕ) (s : ℕ) :
    optimize_sarima fit pr dr qr sPr sDr sQr s =
      ((searchFold fit (sarimaCandidates pr dr qr sPr sDr sQr s)).best_order,
       (searchFold fit (sarimaCandidates pr dr qr sPr sDr sQr s)).best_seasonal_order) := by
  unfold optimize_sarima searchFold sarimaCandidates
  rw [foldl_flatMap]
  simp only [List.foldl_map]

/-- The candidates whose fit converged, paired with their (finite) AIC scores,
in visit order. A candidate whose fit raises contributes nothing. -/
def scoredCandidates (fit : Order → SeasonalOrder → Except Unit PyFloat)
    (cands : List Candidate) : List (Candidate × ℚ) :=
  cands.filterMap (fun c =>
    match fit c.1 c.2 with
    | .ok (.val q) => some (c, q)
    | _ => none)

/-- Specification-side selection: the first element of the list attaining the
minimal score (so an exact tie is broken in favour of the earlier-enumerated
candidate); `none` on the empty list. -/
def firstArgmin {α : Type} : List (α × ℚ) → Option (α × ℚ)
  | [] => none
  | x :: rest =>
    match firstArgmin rest with
    | none => some x
    | some y => if x.2 ≤ y.2 then some x else some y

/-- Every fitted AIC on the candidate list is a finite real value (neither
NaN nor an infinity). -/
def allValFit (fit : Order → SeasonalOrder → Except Unit PyFloat)
    (cands : List Candidate) : Prop :=
  ∀ c ∈ cands, ∀ aic, fit c.1 c.2 = .ok aic → ∃ q : ℚ, aic = .val q

lemma allValFit_cons {fit : Order → SeasonalOrder → Except Unit PyFloat}
    {c : Candidate} {t : List Candidate} (h : allValFit fit (c :: t)) :
    allValFit fit t :=
  fun c' hc' => h c' (List.mem_cons_of_mem c hc')

/-- Running the loop from a state whose incumbent is a finite score `b`:
the result is the first minimum of the remaining scored candidates when that
minimum strictly beats `b`, and the incumbent state otherwise. -/
lemma foldl_step_from_val (fit : Order → SeasonalOrder → Except Unit PyFloat)
    (cands : List Candidate) (h : allValFit fit cands) :
    ∀ (b : ℚ) (co : Order) (cso : SeasonalOrder),
    cands.foldl (stepCandidate fit) ⟨.val b, some co, some cso⟩ =
      match firstArgmin (scoredCandidates fit cands) with
      | none => ⟨.val b, some co, some cso⟩
      | some (c, q) =>
        if q < b then ⟨.val q, some c.1, some c.2⟩
        else ⟨.val b, some co, some cso⟩ := by
  induction cands with
  | nil => intro b co cso; rfl
  | cons c t ih =>
    intro b co cso
    have hval := h c (List.mem_cons_self c t) 
    have ht := allValFit_cons h
    rcases hf : fit c.1 c.2 with e | aic
    · have hsc : scoredCandidates fit (c :: t) = scoredCandidates fit t := by
        simp [scoredCandidates, List.filterMap_cons, hf]
      rw [hsc]
      rw [List.foldl_cons]
      have hstep : stepCandidate fit ⟨.val b, some co, some cso⟩ c =
          ⟨.val b, some co, some cso⟩ := by
        simp [stepCandidate, hf]
      rw [hstep]
      exact ih ht b co cso
    · obtain ⟨q, rfl⟩ := hval aic hf
      have hsc : scoredCandidates fit (c :: t) =
          (c, q) :: scoredCandidates fit t := by
        simp [scoredCandidates, List.filterMap_cons, hf]
      rw [hsc, List.foldl_cons]
      by_cases hqb : q < b
      · have hstep : stepCandidate fit ⟨.val b, some co, some cso⟩ c =
            ⟨.val q, some c.1, some c.2⟩ := by
          simp [stepCandidate, hf, PyFloat.ltB, hqb]
        rw [hstep, ih ht q c.1 c.2]
        cases hfa : firstArgmin (scoredCandidates fit t) with
        | none => simp [firstArgmin, hfa, hqb]
        | some y =>
          by_cases hqy : q ≤ y.2
          · have : ¬ y.2 < q := not_lt.mpr hqy
            simp [firstArgmin, hfa, hqy, this, hqb]
          · have hyq : y.2 < q := not_le.mp hqy
            have hyb : y.2 < b := lt_trans hyq hqb
            simp [firstArgmin, hfa, hqy, hyq, hyb]
      · have hstep : stepCandidate fit ⟨.val b, some co, some cso⟩ c =
            ⟨.val b, some co, some cso⟩ := by
          simp [stepCandidate, hf, PyFloat.ltB, hqb]
        rw [hstep, ih ht b co cso]
        have hbq : b ≤ q := not_lt.mp hqb
        cases hfa : firstArgmin (scoredCandidates fit t) with
        | none => simp [firstArgmin, hfa, hqb]
        | some y =>
          by_cases hqy : q ≤ y.2
          · have : ¬ y.2 < b := not_lt.mpr (le_trans hbq hqy)
            simp [firstArgmin, hfa, hqy, this, hqb]
          · simp [firstArgmin, hfa, hqy]

/-- Running the whole loop from the initial state (`best_aic = +∞`): the
result is exactly the first minimum of the scored candidates, or the initial
state when no candidate converged. -/
lemma searchFold_eq_firstArgmin (fit : Order → SeasonalOrder → Except Unit PyFloat)
    (cands : List Candidate) (h : allValFit fit cands) :
    searchFold fit cands =
      match firstArgmin (scoredCandidates fit cands) with
      | none => initState
      | some (c, q) => ⟨.val q, some c.1, some c.2⟩ := by
  unfold searchFold
  induction cands with
  | nil => rfl
  | cons c t ih =>
    have hval := h c (List.mem_cons_self c t)
    have ht := allValFit_cons h
    rcases hf : fit c.1 c.2 with e | aic
    · have hsc : scoredCandidates fit (c :: t) = scoredCandidates fit t := by
        simp [scoredCandidates, List.filterMap_cons, hf]
      have hstep : stepCandidate fit initState c = initState := by
        simp [stepCandidate, hf]
      rw [hsc, List.foldl_cons, hstep]
      exact ih ht
    · obtain ⟨q, rfl⟩ := hval aic hf
      have hsc : scoredCandidates fit (c :: t) =
          (c, q) :: scoredCandidates fit t := by
        simp [scoredCandidates, List.filterMap_cons, hf]
      have hstep : stepCandidate fit initState c = ⟨.val q, some c.1, some c.2⟩ := by
        simp [stepCandidate, initState, hf, PyFloat.ltB]
      rw [hsc, List.foldl_cons, hstep, foldl_step_from_val fit t ht q c.1 c.2]
      cases hfa : firstArgmin (scoredCandidates fit t) with
      | none => simp [firstArgmin, hfa]
      | some y =>
        by_cases hqy : q ≤ y.2
        · have : ¬ y.2 < q := not_lt.mpr hqy
          simp [firstArgmin, hfa, hqy, this]
        · have hyq : y.2 < q := not_le.mp hqy
          simp [firstArgmin, hfa, hqy, hyq]

/-- The four target gases of `target_gases`
(`CO2_seasonal`, `CH4_seasonal`, `N2O_seasonal`, `SF6_seasonal`). -/
inductive Gas where
  | co2 : Gas
  | ch4 : Gas
  | n2o : Gas
  | sf6 : Gas
deriving DecidableEq

/-- The list `target_gases` in the script's iteration order. -/
def target_gases : List Gas := [.co2, .ch4, .n2o, .sf6]

/-- One row of the table after the date column has been parsed: a month index
and the four seasonal gas columns, each possibly missing (a `#N/A` cell). -/
structure RawRow where
  date : ℕ
  co2 : Option ℚ
  ch4 : Option ℚ
  n2o : Option ℚ
  sf6 : Option ℚ
deriving DecidableEq

/-- Column lookup `row[gas]` on a parsed row. -/
def RawRow.get : RawRow → Gas → Option ℚ
  | r, .co2 => r.co2
  | r, .ch4 => r.ch4
  | r, .n2o => r.n2o
  | r, .sf6 => r.sf6

/-- A row survives `df_seasonal.dropna()` exactly when none of the four
seasonal columns is missing. -/
def rowComplete (r : RawRow) : Bool :=
  r.co2.isSome && r.ch4.isSome && r.n2o.isSome && r.sf6.isSome

/-- `df.sort_index()`: sort the rows by date. -/
def sortRows (rows : List RawRow) : List RawRow :=
  List.insertionSort (fun a b => a.date ≤ b.date) rows

/-- Lines 52–63 of `prediction.py`: sort by the date index, keep the four
seasonal columns, and drop every row in which any of them is missing. -/
def cleanRows (rows : List RawRow) : List RawRow :=
  (sortRows rows).filter rowComplete

/-- The series `df[gas]` for one gas after cleaning: (date, value) pairs for
the rows whose `gas` cell is present. -/
def seriesOf (rows : List RawRow) (g : Gas) : List (ℕ × ℚ) :=
  (cleanRows rows).filterMap (fun r => (r.get g).map (fun v => (r.date, v)))

/-- The historical dates of one gas's cleaned series. -/
def seriesDates (rows : List RawRow) (g : Gas) : List ℕ :=
  (seriesOf rows g).map Prod.fst

/-- `ts.index.max()`: the last historical month of a series. -/
def last_data_date (ts : List (ℕ × ℚ)) : ℕ :=
  (ts.map Prod.fst).foldl Nat.max 0

/-- The grid `p = d = q = range(0, 2)` of line 104. -/
def pdqRange : List ℕ := [0, 1]

/-- The grid `P = D = Q = range(0, 2)` of line 105. -/
def PDQRange : List ℕ := [0, 1]

/-- The seasonal period `s = 12` of line 106. -/
def sPeriod : ℕ := 12

/-- `forecast_horizon = 6` (line 69). -/
def forecast_horizon : ℕ := 6

/-- One row of the output `forecast_df`: gas, month, point forecast, and the
two confidence-interval bounds. -/
structure ForecastRecord where
  gas : Gas
  date : ℕ
  forecast : ℚ
  lower_ci : ℚ
  upper_ci : ℚ
deriving DecidableEq

/-- Errors that abort the run. `typeError` is the unhandled exception raised
when `SARIMAX` is constructed with `order=None`; `loadError` is the
load-failure path that prints and calls `exit()`; `parseError` is an unhandled
`pd.to_datetime` failure on a malformed date cell. -/
inductive PyError where
  | typeError : PyError
  | loadError : PyError
  | parseError : PyError
deriving DecidableEq

/-- Modelled from the spec: the fitted model's forecast at the 95% two-sided
level. `get_forecast(...).predicted_mean` is an oracle `mean`, its standard
errors an oracle `se`, and `conf_int()` yields `mean ∓ z·se` where `z` stands
for the 97.5% quantile of the predictive distribution — the bounds come
directly from the model's own predictive distribution, with no custom
interval logic. The record for step `i` carries the date `startDate + i`,
mirroring `pd.date_range(start=forecast_start_date, periods=6, freq='MS')`. -/
def forecastRecords (g : Gas) (startDate : ℕ) (mean se : ℕ → ℚ) (z : ℚ) :
    List ForecastRecord :=
  (List.range forecast_horizon).map (fun i =>
    ⟨g, startDate + i, mean i, mean i - z * se i, mean i + z * se i⟩)

/-- The body of the per-gas loop (lines 108–137): run the grid search with the
fixed grids, then construct `SARIMAX(ts, order=best_order, ...)`. When the
search returned `None` for the orders, the constructor raises an unhandled
`TypeError` (subscripting `None`); otherwise the model is fitted and the
6-month forecast table is built, starting one month after `ts.index.max()`.
`mean` and `se` are oracles for the fitted model's predictive distribution,
indexed by the chosen orders. -/
def processGas (fit : Order → SeasonalOrder → Except Unit PyFloat)
    (mean se : Order → SeasonalOrder → ℕ → ℚ) (z : ℚ)
    (g : Gas) (ts : List (ℕ × ℚ)) : Except PyError (List ForecastRecord) :=
  match optimize_sarima fit pdqRange pdqRange pdqRange
      PDQRange PDQRange PDQRange sPeriod with
  | (some o, some so) =>
    .ok (forecastRecords g (last_data_date ts + 1) (mean o so) (se o so) z)
  | (_, _) => .error .typeError

/-- The whole per-gas loop over a gas list: each gas's forecast table is
appended to `all_forecasts`; an unhandled exception in any iteration aborts
the loop (and with it the run, before anything is written). The final list is
the concatenation `pd.concat(all_forecasts)`. -/
def runForecasts (fit : Gas → Order → SeasonalOrder → Except Unit PyFloat)
    (mean se : Gas → Order → SeasonalOrder → ℕ → ℚ) (z : ℚ)
    (rows : List RawRow) : List Gas → Except PyError (List ForecastRecord)
  | [] => .ok []
  | g :: rest =>
    match processGas (fit g) (mean g) (se g) z g (seriesOf rows g) with
    | .error e => .error e
    | .ok recs =>
      match runForecasts fit mean se z rows rest with
      | .error e => .error e
      | .ok more => .ok (recs ++ more)

/-- One row of the remote CSV before date parsing. -/
structure CsvRow where
  dateStr : String
  co2 : Option ℚ
  ch4 : Option ℚ
  n2o : Option ℚ
  sf6 : Option ℚ

/-- Line 50: `pd.to_datetime(df['Date'], format='%b-%Y')` parses every date
cell; a single malformed cell raises, unhandled. -/
def parseAllDates (parse : String → Except PyError ℕ) (rows : List CsvRow) :
    Except PyError (List RawRow) :=
  rows.mapM (fun r => do
    let d ← parse r.dateStr
    pure ⟨d, r.co2, r.ch4, r.n2o, r.sf6⟩)

/-- The two files the script writes, both built from `final_forecast_df`:
the forecast CSV and the HTML chart's forecast traces. -/
structure Outputs where
  csv : List ForecastRecord
  htmlForecasts : List ForecastRecord
deriving DecidableEq

/-- The whole run: fetch the CSV (on failure the script prints and calls
`exit()` — no output exists), parse the dates (a failure is an unhandled
exception — no output), clean, forecast every gas, and only then write the
CSV file and the HTML chart. An `Except.error` value means the process
terminated with neither output file written. -/
def runPipeline (fetch : Except PyError (List CsvRow))
    (parse : String → Except PyError ℕ)
    (fit : Gas → Order → SeasonalOrder → Except Unit PyFloat)
    (mean se : Gas → Order → SeasonalOrder → ℕ → ℚ) (z : ℚ) :
    Except PyError Outputs :=
  match fetch with
  | .error e => .error e
  | .ok csvRows =>
    match parseAllDates parse csvRows with
    | .error e => .error e
    | .ok rows =>
      match runForecasts fit mean se z rows target_gases with
      | .error e => .error e
      | .ok recs => .ok ⟨recs, recs⟩

/-- A successful per-gas run means the search produced both orders and the
output is the 6-month forecast table of the fitted model, starting one month
after the last historical date. -/
lemma processGas_ok_elim {fit : Order → SeasonalOrder → Except Unit PyFloat}
    {mean se : Order → SeasonalOrder → ℕ → ℚ} {z : ℚ} {g : Gas}
    {ts : List (ℕ × ℚ)} {recs : List ForecastRecord}
    (h : processGas fit mean se z g ts = .ok recs) :
    ∃ o so, optimize_sarima fit pdqRange pdqRange pdqRange
        PDQRange PDQRange PDQRange sPeriod = (some o, some so) ∧
      recs = forecastRecords g (last_data_date ts + 1) (mean o so) (se o so) z := by
  unfold processGas at h
  rcases ho : optimize_sarima fit pdqRange pdqRange pdqRange
      PDQRange PDQRange PDQRange sPeriod with ⟨bo, bso⟩
  rw [ho] at h
  cases bo with
  | none => simp at h
  | some o =>
    cases bso with
    | none => simp at h
    | some so => exact ⟨o, so, rfl, (Except.ok.inj h).symm⟩

/-- If every candidate's fit raises, the loop never leaves the initial
state. -/
lemma searchFold_all_error (fit : Order → SeasonalOrder → Except Unit PyFloat)
    (cands : List Candidate)
    (h : ∀ c ∈ cands, fit c.1 c.2 = .error ()) :
    searchFold fit cands = initState := by
  unfold searchFold
  induction cands with
  | nil => rfl
  | cons c t ih =>
    have hc := h c (List.mem_cons_self c t)
    have hstep : stepCandidate fit initState c = initState := by
      simp [stepCandidate, hc]
    rw [List.foldl_cons, hstep]
    exact ih (fun c' hc' => h c' (List.mem_cons_of_mem c hc'))

/-- If every candidate either raises or converges to a NaN AIC, the loop
never leaves the initial state: NaN never wins the strict comparison. -/
lemma searchFold_all_error_or_nan (fit : Order → SeasonalOrder → Except Unit PyFloat)
    (cands : List Candidate)
    (h : ∀ c ∈ cands, fit c.1 c.2 = .error () ∨ fit c.1 c.2 = .ok .nan) :
    searchFold fit cands = initState := by
  unfold searchFold
  induction cands with
  | nil => rfl
  | cons c t ih =>
    have hstep : stepCandidate fit initState c = initState := by
      rcases h c (List.mem_cons_self c t) with hc | hc <;>
        simp [stepCandidate, hc, PyFloat.ltB]
    rw [List.foldl_cons, hstep]
    exact ih (fun c' hc' => h c' (List.mem_cons_of_mem c hc'))

/-- The reachable-state invariant of the search: either nothing has been
selected yet (and `best_aic` is still `+∞`), or all three best-variables are
populated and the score is finite. -/
def StateOk (st : SearchState) : Prop :=
  st = initState ∨ ∃ q o so, st = ⟨.val q, some o, some so⟩

lemma stepCandidate_stateOk {fit : Order → SeasonalOrder → Except Unit PyFloat}
    (hninf : ∀ o so, fit o so ≠ .ok .ninf)
    {st : SearchState} (hst : StateOk st) (c : Candidate) :
    StateOk (stepCandidate fit st c) := by
  unfold stepCandidate
  rcases hf : fit c.1 c.2 with e | aic
  · exact hst
  · cases aic with
    | nan =>
      have : PyFloat.ltB .nan st.best_aic = false := by
        cases h : st.best_aic <;> rfl
      simp [this, hst]
    | inf =>
      have : PyFloat.ltB .inf st.best_aic = false := by
        cases h : st.best_aic <;> rfl
      simp [this, hst]
    | ninf => exact absurd hf (hninf c.1 c.2)
    | val q =>
      by_cases hlt : PyFloat.ltB (.val q) st.best_aic = true
      · simp only [hlt, if_true]
        exact Or.inr ⟨q, c.1, c.2, rfl⟩
      · simp only [Bool.not_eq_true] at hlt
        simp [hlt, hst]

lemma searchFold_stateOk (fit : Order → SeasonalOrder → Except Unit PyFloat)
    (cands : List Candidate) (hninf : ∀ o so, fit o so ≠ .ok .ninf) :
    StateOk (searchFold fit cands) := by
  unfold searchFold
  have : ∀ st : SearchState, StateOk st → StateOk (cands.foldl (stepCandidate fit) st) := by
    induction cands with
    | nil => exact fun st h => h
    | cons c t ih =>
      intro st h
      rw [List.foldl_cons]
      exact ih _ (stepCandidate_stateOk hninf h c)
  exact this initState (Or.inl rfl)

/-- Each of the four gas columns is present on a row that survived
`dropna`. -/
lemma rowComplete_get {r : RawRow} (h : rowComplete r = true) (g : Gas) :
    ∃ v, r.get g = some v := by
  unfold rowComplete at h
  simp only [Bool.and_eq_true, Option.isSome_iff_exists] at h
  obtain ⟨⟨⟨h1, h2⟩, h3⟩, h4⟩ := h
  cases g <;> simp [RawRow.get] <;> assumption

/-- On a list of complete rows, projecting any gas column keeps every row, so
the date column of the extracted series is the date column of the list. -/
lemma filterMap_get_dates (g : Gas) :
    ∀ (l : List RawRow), (∀ r ∈ l, rowComplete r = true) →
      (l.filterMap (fun r => (r.get g).map (fun v => (r.date, v)))).map Prod.fst =
        l.map RawRow.date := by
  intro l
  induction l with
  | nil => intro _; rfl
  | cons r t ih =>
    intro h
    obtain ⟨v, hv⟩ := rowComplete_get (h r (List.mem_cons_self r t)) g
    have ht := ih (fun r' hr' => h r' (List.mem_cons_of_mem r hr'))
    simp [List.filterMap_cons, hv, ht]

/-- The dates of the forecast table are the six consecutive months from its
start date. -/
lemma forecastRecords_map_date (g : Gas) (startDate : ℕ) (mean se : ℕ → ℚ)
    (z : ℚ) :
    (forecastRecords g startDate mean se z).map (fun r => r.date) =
      List.range' startDate forecast_horizon := by
  simp only [forecastRecords, List.map_map, List.range'_eq_map_range]
  rfl

lemma chain'_succ_range' (s n : ℕ) :
    List.Chain' (fun a b => b = a + 1) (List.range' s n) := by
  induction n generalizing s with
  | zero => exact List.chain'_nil
  | succ m ih =>
    rw [List.range'_succ s m 1]
    cases m with
    | zero => simp
    | succ k =>
      rw [List.range'_succ (s + 1) k 1]
      have h2 := ih (s + 1)
      rw [List.range'_succ (s + 1) k 1] at h2
      exact List.Chain'.cons rfl h2

/-- If the per-gas loop succeeded, every gas on the list was forecast
successfully. -/
lemma runForecasts_ok_elim {fit : Gas → Order → SeasonalOrder → Except Unit PyFloat}
    {mean se : Gas → Order → SeasonalOrder → ℕ → ℚ} {z : ℚ} {rows : List RawRow} :
    ∀ {gs : List Gas} {out : List ForecastRecord},
      runForecasts fit mean se z rows gs = .ok out →
      ∀ g ∈ gs, ∃ r, processGas (fit g) (mean g) (se g) z g (seriesOf rows g) = .ok r := by
  intro gs
  induction gs with
  | nil => intro out _ g hg; exact absurd hg (List.not_mem_nil g)
  | cons g' t ih =>
    intro out hout g hg
    rcases hp : processGas (fit g') (mean g') (se g') z g' (seriesOf rows g') with e | r
    · rw [runForecasts, hp] at hout
      exact absurd hout (by simp)
    · rw [runForecasts, hp] at hout
      rcases List.mem_cons.mp hg with hg1 | hg1
      · subst hg1; exact ⟨r, hp⟩
      · rcases ht : runForecasts fit mean se z rows t with e | more
        · rw [ht] at hout; exact absurd hout (by simp)
        · exact ih ht g hg1

lemma mem_product3 {xs ys zs : List ℕ} {t : ℕ × ℕ × ℕ} :
    t ∈ product3 xs ys zs ↔ t.1 ∈ xs ∧ t.2.1 ∈ ys ∧ t.2.2 ∈ zs := by
  obtain ⟨x, y, z⟩ := t
  simp only [product3, List.mem_flatMap, List.mem_map, Prod.mk.injEq]
  constructor
  · rintro ⟨a, ha, b, hb, c, hc, rfl, rfl, rfl⟩
    exact ⟨ha, hb, hc⟩
  · rintro ⟨hx, hy, hz⟩
    exact ⟨x, hx, y, hy, z, hz, rfl, rfl, rfl⟩

/-- The candidate list is exactly the Cartesian product of the six grids with
the fixed period: nothing is pruned and nothing outside the grids appears. -/
lemma mem_sarimaCandidates {pr dr qr sPr sDr sQr : List ℕ} {s : ℕ}
    {o : Order} {so : SeasonalOrder} :
    (o, so) ∈ sarimaCandidates pr dr qr sPr sDr sQr s ↔
      o.1 ∈ pr ∧ o.2.1 ∈ dr ∧ o.2.2 ∈ qr ∧
      so.1 ∈ sPr ∧ so.2.1 ∈ sDr ∧ so.2.2.1 ∈ sQr ∧ so.2.2.2 = s := by
  obtain ⟨P, D, Q, S⟩ := so
  simp only [sarimaCandidates, List.mem_flatMap, List.mem_map, Prod.mk.injEq]
  constructor
  · rintro ⟨a, ha, sp, hsp, rfl, rfl, rfl, rfl, rfl⟩
    have h3 := mem_product3.mp hsp
    have h1 := mem_product3.mp ha
    exact ⟨h1.1, h1.2.1, h1.2.2, h3.1, h3.2.1, h3.2.2, rfl⟩
  · rintro ⟨h1, h2, h3, h4, h5, h6, rfl⟩
    exact ⟨o, mem_product3.mpr ⟨h1, h2, h3⟩, (P, D, Q),
      mem_product3.mpr ⟨h4, h5, h6⟩, rfl, rfl, rfl, rfl, rfl⟩

/-- A fit oracle on which every candidate raises: what happens when the series
is empty or when every fit fails to converge numerically. -/
def failFit : Order → SeasonalOrder → Except Unit PyFloat := fun _ _ => .error ()

/-- A fit oracle on which every candidate converges with AIC 0. -/
def constFit : Order → SeasonalOrder → Except Unit PyFloat :=
  fun _ _ => .ok (.val 0)

/-- A fit oracle on which every candidate converges with a NaN AIC. -/
def nanFit : Order → SeasonalOrder → Except Unit PyFloat := fun _ _ => .ok .nan

/-- A constant predictive-mean oracle. -/
def meanZero : Order → SeasonalOrder → ℕ → ℚ := fun _ _ _ => 0

/-- A constant standard-error oracle. -/
def seZero : Order → SeasonalOrder → ℕ → ℚ := fun _ _ _ => 0

/-- A stand-in for the 97.5% quantile of the predictive distribution. -/
def zQuantile : ℚ := 196 / 100

/-- Gas-indexed all-failing fit family. -/
def failFitFam : Gas → Order → SeasonalOrder → Except Unit PyFloat :=
  fun _ => failFit

/-- Gas-indexed constant fit family. -/
def constFitFam : Gas → Order → SeasonalOrder → Except Unit PyFloat :=
  fun _ => constFit

/-- Gas-indexed constant mean family. -/
def meanZeroFam : Gas → Order → SeasonalOrder → ℕ → ℚ := fun _ => meanZero

/-- Gas-indexed constant standard-error family. -/
def seZeroFam : Gas → Order → SeasonalOrder → ℕ → ℚ := fun _ => seZero

/-- A date parser that accepts everything (month index 0). -/
def parseOk : String → Except PyError ℕ := fun _ => .ok 0

/-- A date parser that rejects everything, as `pd.to_datetime` does on a
malformed `%b-%Y` cell. -/
def parseBad : String → Except PyError ℕ := fun _ => .error .parseError

/-- A sample CSV row. -/
def sampleCsvRow : CsvRow := ⟨"", some 1, some 1, some 1, some 1⟩

/-- A sample one-point series with last historical month 10. -/
def sampleTs : List (ℕ × ℚ) := [(10, 1)]

/-- The forecast table the sample run produces. -/
def sampleRecs : List ForecastRecord :=
  forecastRecords .co2 11 (fun _ => 0) (fun _ => 0) zQuantile

/-- The first record of the sample forecast table. -/
def sampleRec0 : ForecastRecord :=
  ⟨.co2, 11 + 0, 0, 0 - zQuantile * 0, 0 + zQuantile * 0⟩

/-- Claim C1: for every fit oracle and grids, the order search enumerates the
full Cartesian product of non-seasonal triples times seasonal triples — a
pair is a visited candidate exactly when each component lies in its grid, so
there is no pruning and no early stopping — and returns the order pair whose
fitted AIC is lowest among all candidates that converged; candidates whose
fit raises contribute no score and are excluded; an exact tie in score goes
to the first-enumerated candidate (`firstArgmin` over the scored candidates
in visit order). Converged AIC values are assumed finite. -/
theorem optimize_sarima_selects_first_min
    (fit : Order → SeasonalOrder → Except Unit PyFloat)
    (pr dr qr sPr sDr sQr : List ℕ) (s : ℕ)
    (hval : allValFit fit (sarimaCandidates pr dr qr sPr sDr sQr s)) :
    (∀ (o : Order) (so : SeasonalOrder),
      (o, so) ∈ sarimaCandidates pr dr qr sPr sDr sQr s ↔
        o.1 ∈ pr ∧ o.2.1 ∈ dr ∧ o.2.2 ∈ qr ∧
        so.1 ∈ sPr ∧ so.2.1 ∈ sDr ∧ so.2.2.1 ∈ sQr ∧ so.2.2.2 = s) ∧
    optimize_sarima fit pr dr qr sPr sDr sQr s =
      (match firstArgmin (scoredCandidates fit
          (sarimaCandidates pr dr qr sPr sDr sQr s)) with
       | none => (none, none)
       | some (c, _) => (some c.1, some c.2)) := by
  refine ⟨fun o so => mem_sarimaCandidates, ?_⟩
  rw [optimize_sarima_eq_searchFold, searchFold_eq_firstArgmin fit _ hval]
  cases hfa : firstArgmin (scoredCandidates fit
      (sarimaCandidates pr dr qr sPr sDr sQr s)) with
  | none => rfl
  | some y => obtain ⟨c, q⟩ := y; rfl

/-- Witness for C1: a concrete fit oracle and concrete grids. -/
theorem optimize_sarima_selects_first_min_witness :
    optimize_sarima constFit [0] [0] [0] [0] [0] [0] 12 =
      (match firstArgmin (scoredCandidates constFit
          (sarimaCandidates [0] [0] [0] [0] [0] [0] 12)) with
       | none => (none, none)
       | some (c, _) => (some c.1, some c.2)) :=
  (optimize_sarima_selects_first_min constFit [0] [0] [0] [0] [0] [0] 12
    (fun c _ aic haic => by cases haic; exact ⟨0, rfl⟩)).2

/-- Claim C2: when no candidate converges, the search itself returns the
complete no-result `(None, None)` without raising; the caller then hits the
unhandled `TypeError` from `SARIMAX(ts, order=None, ...)`, the per-gas loop
errors, and the pipeline aborts producing no forecast output for any
series. -/
theorem search_no_converge_aborts_run
    (fit : Gas → Order → SeasonalOrder → Except Unit PyFloat)
    (mean se : Gas → Order → SeasonalOrder → ℕ → ℚ) (z : ℚ)
    (rows : List RawRow) (g : Gas) (hg : g ∈ target_gases)
    (hfail : ∀ c ∈ sarimaCandidates pdqRange pdqRange pdqRange
        PDQRange PDQRange PDQRange sPeriod, fit g c.1 c.2 = .error ()) :
    optimize_sarima (fit g) pdqRange pdqRange pdqRange
        PDQRange PDQRange PDQRange sPeriod = (none, none) ∧
    (∀ ts, processGas (fit g) (mean g) (se g) z g ts = .error .typeError) ∧
    (∃ e, runForecasts fit mean se z rows target_gases = .error e) ∧
    (∀ fetch parse csvRows, fetch = .ok csvRows →
      parseAllDates parse csvRows = .ok rows →
      ∃ e, runPipeline fetch parse fit mean se z = .error e) := by
  have h1 : optimize_sarima (fit g) pdqRange pdqRange pdqRange
      PDQRange PDQRange PDQRange sPeriod = (none, none) := by
    rw [optimize_sarima_eq_searchFold, searchFold_all_error _ _ hfail]
    rfl
  have h2 : ∀ ts, processGas (fit g) (mean g) (se g) z g ts = .error .typeError := by
    intro ts
    simp [processGas, h1]
  have h3 : ∃ e, runForecasts fit mean se z rows target_gases = .error e := by
    rcases hrf : runForecasts fit mean se z rows target_gases with e | out
    · exact ⟨e, rfl⟩
    · obtain ⟨r, hr⟩ := runForecasts_ok_elim hrf g hg
      rw [h2 (seriesOf rows g)] at hr
      exact absurd hr (by simp)
  refine ⟨h1, h2, h3, ?_⟩
  intro fetch parse csvRows hfetch hparse
  obtain ⟨e, he⟩ := h3
  refine ⟨e, ?_⟩
  simp [runPipeline, hfetch, hparse, he]

/-- Witness for C2: an all-failing fit family on an empty table. -/
theorem search_no_converge_aborts_run_witness :
    optimize_sarima (failFitFam .co2) pdqRange pdqRange pdqRange
        PDQRange PDQRange PDQRange sPeriod = (none, none) ∧
    processGas failFit meanZero seZero zQuantile .co2 [] = .error .typeError ∧
    (∃ e, runForecasts failFitFam meanZeroFam seZeroFam zQuantile []
        target_gases = .error e) ∧
    (∃ e, runPipeline (.ok []) parseOk failFitFam meanZeroFam seZeroFam
        zQuantile = .error e) := by
  have h := search_no_converge_aborts_run failFitFam meanZeroFam seZeroFam
    zQuantile [] .co2 (by decide) (fun c _ => rfl)
  exact ⟨h.1, h.2.1 [], h.2.2.1, h.2.2.2 (.ok []) parseOk [] rfl rfl⟩

/-- Counterexample to claim C3: an empty series (every candidate fit raises
because there is no data — `SARIMAX` rejects an empty endog) and a non-empty
series on which every candidate fit fails to converge numerically surface
exactly the same error: the search returns `(None, None)` in both cases and
the caller raises the identical `TypeError`. Nothing distinguishes the two,
contradicting the claim that they are detected and reported distinctly. -/
theorem empty_and_nonconverge_same_error :
    processGas failFit meanZero seZero zQuantile .co2 [] = .error .typeError ∧
    processGas failFit meanZero seZero zQuantile .co2 sampleTs =
      .error .typeError ∧
    processGas failFit meanZero seZero zQuantile .co2 [] =
      processGas failFit meanZero seZero zQuantile .co2 sampleTs := by
  refine ⟨?_, ?_, ?_⟩ <;> rfl

/-- Claim C3 amended: an empty or all-missing target column after cleaning is
NOT detected and NOT reported distinctly from a numerical convergence
failure: whenever every candidate fit raises — be it because the cleaned
series is empty or because no fit converges numerically — the per-gas step
surfaces the identical unhandled `TypeError`, independent of the series
contents. -/
theorem empty_and_nonconverge_indistinguishable
    (fit : Order → SeasonalOrder → Except Unit PyFloat)
    (mean se : Order → SeasonalOrder → ℕ → ℚ) (z : ℚ) (g : Gas)
    (h : ∀ o so, fit o so = .error ()) :
    ∀ ts₁ ts₂ : List (ℕ × ℚ),
      processGas fit mean se z g ts₁ = .error .typeError ∧
      processGas fit mean se z g ts₁ = processGas fit mean se z g ts₂ := by
  have hnone : optimize_sarima fit pdqRange pdqRange pdqRange
      PDQRange PDQRange PDQRange sPeriod = (none, none) := by
    rw [optimize_sarima_eq_searchFold,
      searchFold_all_error fit _ (fun c _ => h c.1 c.2)]
    rfl
  intro ts₁ ts₂
  constructor
  · simp [processGas, hnone]
  · simp [processGas, hnone]

/-- Witness for the amended C3. -/
theorem empty_and_nonconverge_indistinguishable_witness :
    processGas failFit meanZero seZero zQuantile .ch4 [] = .error .typeError ∧
    processGas failFit meanZero seZero zQuantile .ch4 [] =
      processGas failFit meanZero seZero zQuantile .ch4 sampleTs :=
  empty_and_nonconverge_indistinguishable failFit meanZero seZero zQuantile
    .ch4 (fun _ _ => rfl) [] sampleTs

/-- Claim C4: the search never returns a partially-populated result: for
every fit oracle (whose AIC is never `-∞`) and grids, either the complete
no-result `(None, None)` comes back, or both the non-seasonal and the
seasonal order are populated and the tracked best AIC is a finite value. -/
theorem optimize_sarima_no_partial_result
    (fit : Order → SeasonalOrder → Except Unit PyFloat)
    (pr dr qr sPr sDr sQr : List ℕ) (s : ℕ)
    (hninf : ∀ o so, fit o so ≠ .ok .ninf) :
    optimize_sarima fit pr dr qr sPr sDr sQr s = (none, none) ∨
    ∃ o so q, optimize_sarima fit pr dr qr sPr sDr sQr s = (some o, some so) ∧
      (searchFold fit (sarimaCandidates pr dr qr sPr sDr sQr s)).best_aic =
        .val q := by
  rcases searchFold_stateOk fit (sarimaCandidates pr dr qr sPr sDr sQr s) hninf
    with h | ⟨q, o, so, h⟩
  · left
    rw [optimize_sarima_eq_searchFold, h]
    rfl
  · right
    exact ⟨o, so, q, by rw [optimize_sarima_eq_searchFold, h], by rw [h]⟩

/-- Witness for C4 at a concrete fit oracle. -/
theorem optimize_sarima_no_partial_result_witness :
    optimize_sarima constFit pdqRange pdqRange pdqRange
        PDQRange PDQRange PDQRange sPeriod = (none, none) ∨
    ∃ o so q, optimize_sarima constFit pdqRange pdqRange pdqRange
        PDQRange PDQRange PDQRange sPeriod = (some o, some so) ∧
      (searchFold constFit (sarimaCandidates pdqRange pdqRange pdqRange
        PDQRange PDQRange PDQRange sPeriod)).best_aic = .val q :=
  optimize_sarima_no_partial_result constFit pdqRange pdqRange pdqRange
    PDQRange PDQRange PDQRange sPeriod
    (fun _ _ h => PyFloat.noConfusion (Except.ok.inj h))

/-- Claim C5: after cleaning, every gas's series carries exactly the date
column of the cleaned table — a row is dropped for all series whenever any
target column is missing on that date — so any two of the four series share
an identical list of historical timestamps, and every surviving row has all
four values present. The cleaned rows are pure data, never mutated later. -/
theorem cleaned_series_share_dates (rows : List RawRow) (g g' : Gas) :
    seriesDates rows g = (cleanRows rows).map RawRow.date ∧
    seriesDates rows g = seriesDates rows g' ∧
    ∀ r ∈ cleanRows rows, rowComplete r = true := by
  have hcomp : ∀ r ∈ cleanRows rows, rowComplete r = true := by
    intro r hr
    exact (List.mem_filter.mp hr).2
  have hd : ∀ g₀ : Gas,
      seriesDates rows g₀ = (cleanRows rows).map RawRow.date := by
    intro g₀
    unfold seriesDates seriesOf
    exact filterMap_get_dates g₀ (cleanRows rows) hcomp
  exact ⟨hd g, (hd g).trans (hd g').symm, hcomp⟩

/-- Claim C6: every series that is forecast yields exactly
`forecast_horizon = 6` forecast records — the forecasted dates are the six
distinct consecutive months, so each forecasted month yields exactly one
record, and each record carries exactly one point estimate, one lower bound
and one upper bound by construction. -/
theorem forecast_horizon_exactly_six
    (fit : Order → SeasonalOrder → Except Unit PyFloat)
    (mean se : Order → SeasonalOrder → ℕ → ℚ) (z : ℚ) (g : Gas)
    (ts : List (ℕ × ℚ)) (recs : List ForecastRecord)
    (h : processGas fit mean se z g ts = .ok recs) :
    recs.length = forecast_horizon ∧ forecast_horizon = 6 ∧
    recs.map (fun r => r.date) =
      List.range' (last_data_date ts + 1) forecast_horizon ∧
    (recs.map (fun r => r.date)).Nodup := by
  obtain ⟨o, so, _, hrecs⟩ := processGas_ok_elim h
  subst hrecs
  refine ⟨?_, rfl, forecastRecords_map_date g _ _ _ z, ?_⟩
  · simp [forecastRecords]
  · rw [forecastRecords_map_date]
    exact List.nodup_range' _ _

set_option maxRecDepth 8192 in
/-- Witness for C6 at a concrete successful run. -/
theorem forecast_horizon_exactly_six_witness :
    sampleRecs.length = forecast_horizon ∧ forecast_horizon = 6 ∧
    sampleRecs.map (fun r => r.date) =
      List.range' (last_data_date sampleTs + 1) forecast_horizon ∧
    (sampleRecs.map (fun r => r.date)).Nodup :=
  forecast_horizon_exactly_six constFit meanZero seZero zQuantile .co2
    sampleTs sampleRecs (by rfl)

/-- Claim C7: for every forecast series, the forecasted dates are contiguous
monthly steps whose first element is exactly one month after the series'
last historical date `ts.index.max()`. -/
theorem forecast_dates_contiguous
    (fit : Order → SeasonalOrder → Except Unit PyFloat)
    (mean se : Order → SeasonalOrder → ℕ → ℚ) (z : ℚ) (g : Gas)
    (ts : List (ℕ × ℚ)) (recs : List ForecastRecord)
    (h : processGas fit mean se z g ts = .ok recs) :
    (recs.map (fun r => r.date)).head? = some (last_data_date ts + 1) ∧
    List.Chain' (fun a b => b = a + 1) (recs.map (fun r => r.date)) := by
  obtain ⟨o, so, _, hrecs⟩ := processGas_ok_elim h
  subst hrecs
  rw [forecastRecords_map_date]
  constructor
  · show (List.range' (last_data_date ts + 1) 6).head? =
      some (last_data_date ts + 1)
    rw [List.range'_succ]
    rfl
  · exact chain'_succ_range' _ _

set_option maxRecDepth 8192 in
/-- Witness for C7 at a concrete successful run. -/
theorem forecast_dates_contiguous_witness :
    (sampleRecs.map (fun r => r.date)).head? =
      some (last_data_date sampleTs + 1) ∧
    List.Chain' (fun a b => b = a + 1) (sampleRecs.map (fun r => r.date)) :=
  forecast_dates_contiguous constFit meanZero seZero zQuantile .co2
    sampleTs sampleRecs (by rfl)

/-- Claim C8: in every forecast record, lower bound ≤ point estimate ≤ upper
bound, with the bounds coming directly from the fitted model's own
predictive distribution at the two-sided 95% level (`mean ∓ z·se` with the
model's nonnegative standard errors and the nonnegative 97.5% quantile) —
no custom interval logic. -/
theorem forecast_interval_ordered
    (fit : Order → SeasonalOrder → Except Unit PyFloat)
    (mean se : Order → SeasonalOrder → ℕ → ℚ) (z : ℚ) (g : Gas)
    (ts : List (ℕ × ℚ)) (recs : List ForecastRecord)
    (hz : 0 ≤ z) (hse : ∀ o so i, 0 ≤ se o so i)
    (h : processGas fit mean se z g ts = .ok recs) :
    ∀ r ∈ recs, r.lower_ci ≤ r.forecast ∧ r.forecast ≤ r.upper_ci := by
  obtain ⟨o, so, _, hrecs⟩ := processGas_ok_elim h
  subst hrecs
  intro r hr
  simp only [forecastRecords, List.mem_map, List.mem_range] at hr
  obtain ⟨i, _, rfl⟩ := hr
  have hzse : 0 ≤ z * se o so i := mul_nonneg hz (hse o so i)
  exact ⟨sub_le_self _ hzse, le_add_of_nonneg_right hzse⟩

set_option maxRecDepth 8192 in
/-- Witness for C8 at a concrete record of a concrete successful run. -/
theorem forecast_interval_ordered_witness :
    sampleRec0.lower_ci ≤ sampleRec0.forecast ∧
    sampleRec0.forecast ≤ sampleRec0.upper_ci :=
  forecast_interval_ordered constFit meanZero seZero zQuantile .co2 sampleTs
    sampleRecs (by norm_num [zQuantile]) (fun _ _ _ => le_refl 0) (by rfl)
    sampleRec0 (List.mem_map_of_mem _ (by decide))

/-- Claim C9: if fetching the remote CSV fails (the script prints a
descriptive message and exits) or the date column is malformed (the parse
raises, unhandled), the run aborts with that error before any output: the
`Outputs` value — forecast CSV plus HTML chart — is never produced. -/
theorem load_failure_produces_no_output
    (fetch : Except PyError (List CsvRow)) (parse : String → Except PyError ℕ)
    (fit : Gas → Order → SeasonalOrder → Except Unit PyFloat)
    (mean se : Gas → Order → SeasonalOrder → ℕ → ℚ) (z : ℚ) :
    (∀ e, fetch = .error e → runPipeline fetch parse fit mean se z = .error e) ∧
    (∀ csvRows e, fetch = .ok csvRows →
      parseAllDates parse csvRows = .error e →
      runPipeline fetch parse fit mean se z = .error e) := by
  constructor
  · intro e he
    simp [runPipeline, he]
  · intro csvRows e hfetch hparse
    simp [runPipeline, hfetch, hparse]

/-- Witness for C9: a failing fetch and a malformed date column. -/
theorem load_failure_produces_no_output_witness :
    runPipeline (.error .loadError) parseOk constFitFam meanZeroFam seZeroFam
      zQuantile = .error .loadError ∧
    runPipeline (.ok [sampleCsvRow]) parseBad constFitFam meanZeroFam
      seZeroFam zQuantile = .error .parseError :=
  ⟨(load_failure_produces_no_output (.error .loadError) parseOk constFitFam
      meanZeroFam seZeroFam zQuantile).1 .loadError rfl,
   (load_failure_produces_no_output (.ok [sampleCsvRow]) parseBad constFitFam
      meanZeroFam seZeroFam zQuantile).2 [sampleCsvRow] .parseError rfl
      (by rfl)⟩

/-- Claim C10: the running best — initialised to `+∞` — is updated only when
a converged candidate's AIC wins the strict IEEE comparison against the
incumbent; a NaN AIC therefore never triggers an update (and can never win a
tie), and when every converged candidate has a NaN AIC the search returns
the complete no-result even though candidates converged. -/
theorem nan_aic_never_selected
    (fit : Order → SeasonalOrder → Except Unit PyFloat)
    (pr dr qr sPr sDr sQr : List ℕ) (s : ℕ)
    (hnan : ∀ c ∈ sarimaCandidates pr dr qr sPr sDr sQr s,
      fit c.1 c.2 = .error () ∨ fit c.1 c.2 = .ok .nan) :
    initState.best_aic = .inf ∧
    (∀ st c, fit c.1 c.2 = .ok .nan → stepCandidate fit st c = st) ∧
    (∀ st c, stepCandidate fit st c ≠ st →
      ∃ aic, fit c.1 c.2 = .ok aic ∧ aic.ltB st.best_aic = true ∧
        stepCandidate fit st c = ⟨aic, some c.1, some c.2⟩) ∧
    optimize_sarima fit pr dr qr sPr sDr sQr s = (none, none) := by
  refine ⟨rfl, ?_, ?_, ?_⟩
  · intro st c hc
    have hfalse : PyFloat.ltB .nan st.best_aic = false := by
      cases st.best_aic <;> rfl
    simp [stepCandidate, hc, hfalse]
  · intro st c hne
    rcases hf : fit c.1 c.2 with e | aic
    · exact absurd (by simp [stepCandidate, hf]) hne
    · cases hlt : aic.ltB st.best_aic with
      | false => exact absurd (by simp [stepCandidate, hf, hlt]) hne
      | true => exact ⟨aic, by simp [hf], hlt, by simp [stepCandidate, hf, hlt]⟩
  · rw [optimize_sarima_eq_searchFold, searchFold_all_error_or_nan fit _ hnan]
    rfl

/-- Witness for C10: every candidate converges with a NaN AIC, and the
search returns no-result. -/
theorem nan_aic_never_selected_witness :
    optimize_sarima nanFit [0] [0] [0] [0] [0] [0] 12 = (none, none) :=
  (nan_aic_never_selected nanFit [0] [0] [0] [0] [0] [0] 12
    (fun _ _ => Or.inr rfl)).2.2.2
